import Mathlib

/-!
Verification development for the RocketryBox realtime dashboard and profile
broadcast subsystem.  The definitions below are a shallow embedding of:

- `src/unnamed/part_000` — the server entry point: the dashboard update
  scheduler (`DASHBOARD_UPDATE_CONFIG`, `adjustUpdateInterval`, the two
  `setInterval` timers) and `gracefulShutdown`;
- `src/unnamed/part_002` — the admin user controllers: `updateSellerStatus`,
  `updateCustomerStatus`, `getSellerDetails`, `getCustomerDetails`,
  `getRealtimeUserData`;
- `src/backend/src/modules/seller/models/seller.model.js` — the seller schema
  and its `pre(/^find/)` default-filter hook.

External collaborators missing from the sources (the Redis cache helper
`invalidateCachePattern` in `utils/cache.js`, the Socket.IO registry, the
profile loaders `getSellerProfile` / `getCustomerProfile`) are modelled as
opaque operations or oracle parameters; only their call sites, which are in
the sources, drive the theorems.  Where the semantics of a missing
collaborator matters it is modelled from the spec and noted in the doc
comment of the corresponding definition.
-/

/- ### Adaptive scheduler (src/unnamed/part_000, lines 28-76 and 269-298) -/

/-- Configuration record built at part_000 lines 28-34.  `envInterval` and
`envThreshold` model the optional environment variables
`DASHBOARD_UPDATE_INTERVAL` and `DASHBOARD_LOAD_THRESHOLD` (already parsed to
integers); an absent variable defaults to `30` resp. `20` via the `||`
defaults in the source.  Intervals are in milliseconds; `scaleFactor` is the
literal `1.5`. -/
structure DashboardUpdateConfig where
  initialInterval : Nat
  minInterval : Nat
  maxInterval : Nat
  loadFactorThreshold : Nat
  scaleFactor : ℚ
  deriving DecidableEq

/-- Embedding of the `DASHBOARD_UPDATE_CONFIG` object (part_000 lines 28-34):
`initialInterval = parseInt(env || 30) * 1000`, `minInterval = 10 * 1000`,
`maxInterval = 120 * 1000`, `loadFactorThreshold = parseInt(env || 20)`,
`scaleFactor = 1.5`. -/
def DASHBOARD_UPDATE_CONFIG (envInterval envThreshold : Option Nat) :
    DashboardUpdateConfig where
  initialInterval := (envInterval.getD 30) * 1000
  minInterval := 10 * 1000
  maxInterval := 120 * 1000
  loadFactorThreshold := envThreshold.getD 20
  scaleFactor := 3 / 2

/-- Scheduler state owned by part_000: the module-level variables
`dashboardUpdateInterval` (line 47) and `updateIntervalId` (line 48), plus
whether the five-minute reconfigure timer armed at lines 74-76 is still
armed.  An armed recurring broadcast timer is represented by `some p` where
`p` is the period it was armed with; `none` means no broadcast timer is
armed.  The reconfigure timer is armed once at startup and the source never
stores its handle, so it can never be cleared. -/
structure SchedulerState where
  dashboardUpdateInterval : Nat
  updateIntervalId : Option Nat
  reconfigureTimerArmed : Bool
  deriving DecidableEq

/-- State after module initialisation (part_000 lines 47-48, 68-76):
`dashboardUpdateInterval := initialInterval`, the broadcast timer armed at
that period (lines 69-71), and the five-minute reconfigure timer armed
(lines 74-76). -/
def startupState (cfg : DashboardUpdateConfig) : SchedulerState where
  dashboardUpdateInterval := cfg.initialInterval
  updateIntervalId := some cfg.initialInterval
  reconfigureTimerArmed := true

/-- Embedding of `adjustUpdateInterval` (part_000 lines 51-66).  The source
comment reads "Simplified version without checking connected admin count —
Reset to initial interval": the function reads no load signal at all, sets
`dashboardUpdateInterval` to the configured initial interval, clears the
existing broadcast timer if armed and arms a new one at the new interval.
Because no load input is read, the resulting state is the same under high
load and under normal load. -/
def adjustUpdateInterval (cfg : DashboardUpdateConfig) (s : SchedulerState) :
    SchedulerState where
  dashboardUpdateInterval := cfg.initialInterval
  updateIntervalId := some cfg.initialInterval
  reconfigureTimerArmed := s.reconfigureTimerArmed

/-- Embedding of the timer handling in `gracefulShutdown` (part_000 lines
269-294).  The handler clears `updateIntervalId` if set (lines 274-276) and
touches no other timer: the five-minute reconfigure timer of lines 74-76 has
no stored handle and is left armed. -/
def gracefulShutdown (s : SchedulerState) : SchedulerState where
  dashboardUpdateInterval := s.dashboardUpdateInterval
  updateIntervalId := none
  reconfigureTimerArmed := s.reconfigureTimerArmed

/-- States the scheduler can be in at any time: the startup state, the state
after a reconfigure tick (which can fire only while the reconfigure timer is
armed, and runs `adjustUpdateInterval`), and the state after a shutdown
request.  A broadcast tick (`broadcastDashboardUpdates`, part_000 lines
61-63) does not modify scheduler state, so it adds no transition. -/
inductive Reachable (cfg : DashboardUpdateConfig) : SchedulerState → Prop
  | start : Reachable cfg (startupState cfg)
  | reconfigure {s : SchedulerState} : Reachable cfg s →
      s.reconfigureTimerArmed = true → Reachable cfg (adjustUpdateInterval cfg s)
  | shutdown {s : SchedulerState} : Reachable cfg s →
      Reachable cfg (gracefulShutdown s)

/-- Default configuration: both environment variables absent, giving
`initialInterval = 30000`, `minInterval = 10000`, `maxInterval = 120000`,
`loadFactorThreshold = 20`, `scaleFactor = 1.5` — the configuration named by
claims C2 and C7. -/
def defaultConfig : DashboardUpdateConfig := DASHBOARD_UPDATE_CONFIG none none

/- ### Seller model default find filter
   (src/backend/src/modules/seller/models/seller.model.js, lines 54-63) -/

/-- Seller account status (seller.model.js line 35): the schema enum
`pending | active | suspended`. -/
inductive SellerStatus
  | pending
  | active
  | suspended
  deriving DecidableEq

/-- Condition a find-family query may carry on the `status` field: either an
equality test or a `$ne` test, mirroring the query shapes the controllers
build (`query.status = status`) and the hook itself (`{ status: { $ne:
'suspended' } }`). -/
inductive StatusCond
  | eq (s : SellerStatus)
  | ne (s : SellerStatus)
  deriving DecidableEq

/-- State of a find-family query on the Seller model as seen by the
`pre(/^find/)` hook: `statusCond` models `this._conditions.status` (present
or absent) and `skipDefaultFilter` models
`this.getOptions().skipDefaultFilter`. -/
structure FindQuery where
  statusCond : Option StatusCond
  skipDefaultFilter : Bool
  deriving DecidableEq

/-- Embedding of the seller schema `pre(/^find/)` hook (seller.model.js lines
54-63): when the query neither sets the `skipDefaultFilter` option nor
already carries a `status` condition, the hook merges the condition
`{ status: { $ne: 'suspended' } }` into the query; otherwise the query is
left unchanged. -/
def sellerPreFindHook (q : FindQuery) : FindQuery :=
  if q.skipDefaultFilter = false ∧ q.statusCond = none then
    { q with statusCond := some (StatusCond.ne SellerStatus.suspended) }
  else
    q

/-- Whether a seller document with the given status satisfies the status
condition of a query (absent condition matches every document). -/
def statusMatches (q : FindQuery) (s : SellerStatus) : Bool :=
  match q.statusCond with
  | none => true
  | some (StatusCond.eq t) => s = t
  | some (StatusCond.ne t) => ¬ s = t

/- ### Theorems for the scheduler claims -/

/-- Claim C2 counterexample.  The claim fails at its own configuration
(`initialIntervalMs = 30000`, `minIntervalMs = 10000`,
`maxIntervalMs = 120000`, `scaleFactor = 1.5`): the interval produced by a
`reconfigure()` call from the startup state — the source `reconfigure`
reads no load signal, so this is its result under high load in particular —
is not the claimed `min(30000 * 1.5, 120000) = 45000`; it is `30000`. -/
theorem c2_counterexample :
    ¬ (((adjustUpdateInterval defaultConfig
          (startupState defaultConfig)).dashboardUpdateInterval : ℚ) =
        min ((30000 : ℚ) * defaultConfig.scaleFactor) 120000) := by
  have hmin : min ((30000 : ℚ) * defaultConfig.scaleFactor) 120000 = 45000 := by
    show min ((30000 : ℚ) * (3 / 2)) 120000 = 45000
    norm_num
  have hres : (adjustUpdateInterval defaultConfig
      (startupState defaultConfig)).dashboardUpdateInterval = 30000 := rfl
  rw [hmin, hres]
  norm_num

/-- Claim C2 amended.  The source `adjustUpdateInterval` reads no load signal
and always resets the interval to the configured initial interval: for every
configuration and from every scheduler state — hence under high load and
under normal load alike — a `reconfigure()` yields
`currentIntervalMs = initialIntervalMs`, and so does a subsequent
`reconfigure()`.  Under the claim's own configuration the first
`reconfigure()` (under high load) therefore yields `30000`, not `45000`, and
the subsequent one (under normal load) yields `30000` again. -/
theorem c2_reconfigure_always_resets (cfg : DashboardUpdateConfig)
    (s : SchedulerState) :
    (adjustUpdateInterval cfg s).dashboardUpdateInterval = cfg.initialInterval ∧
    (adjustUpdateInterval cfg
        (adjustUpdateInterval cfg s)).dashboardUpdateInterval = cfg.initialInterval ∧
    (adjustUpdateInterval defaultConfig s).dashboardUpdateInterval = 30000 ∧
    (adjustUpdateInterval defaultConfig
        (adjustUpdateInterval defaultConfig s)).dashboardUpdateInterval = 30000 ∧
    (adjustUpdateInterval defaultConfig s).dashboardUpdateInterval ≠ 45000 := by
  refine ⟨rfl, rfl, rfl, rfl, ?_⟩
  show (30000 : Nat) ≠ 45000
  decide

/-- Claim C4 counterexample.  After `gracefulShutdown` runs from the startup state,
it is not the case that both timers are cancelled and a subsequent
reconfigure is a no-op: in fact the reconfigure timer is still armed and the
subsequent `adjustUpdateInterval` re-arms the broadcast timer. -/
theorem c4_counterexample :
    ¬ ((gracefulShutdown (startupState defaultConfig)).reconfigureTimerArmed = false ∧
       (adjustUpdateInterval defaultConfig
          (gracefulShutdown (startupState defaultConfig))).updateIntervalId = none) := by
  intro h
  exact absurd h.1 (by decide)

/-- Claim C4 amended.  `gracefulShutdown` cancels only the recurring broadcast
timer (`updateIntervalId` becomes `none`, so no further job tick fires); the
five-minute reconfigure timer is left exactly as it was (its handle is never
stored, so it cannot be cleared), and a subsequent reconfigure call is not a
no-op: it re-arms the broadcast timer at the configured initial interval. -/
theorem c4_shutdown_cancels_only_broadcast_timer (s : SchedulerState)
    (cfg : DashboardUpdateConfig) :
    (gracefulShutdown s).updateIntervalId = none ∧
    (gracefulShutdown s).reconfigureTimerArmed = s.reconfigureTimerArmed ∧
    (adjustUpdateInterval cfg (gracefulShutdown s)).updateIntervalId =
      some cfg.initialInterval := by
  exact ⟨rfl, rfl, rfl⟩

/-- Claim C7 counterexample.  When the initial interval is supplied via the
environment as `DASHBOARD_UPDATE_INTERVAL=5`, the scheduler initialises
`currentIntervalMs = 5000`, violating `minIntervalMs ≤ currentIntervalMs`
(`10000 ≤ 5000` is false): the source never clamps the configured initial
interval into `[minInterval, maxInterval]`. -/
theorem c7_counterexample :
    ¬ ((DASHBOARD_UPDATE_CONFIG (some 5) none).minInterval ≤
        (startupState (DASHBOARD_UPDATE_CONFIG (some 5) none)).dashboardUpdateInterval) := by
  decide

/-- Claim C7 amended.  In every reachable scheduler state the current interval
equals the configured initial interval (initialisation sets it and every
reconfigure resets it; job ticks do not touch it), so the invariant
`minIntervalMs ≤ currentIntervalMs ≤ maxIntervalMs` holds at all times
exactly when the configured initial interval itself lies within the bounds —
which is true for the default configuration (`30000 ∈ [10000, 120000]`) but
is not enforced for an environment-supplied initial interval. -/
theorem c7_interval_invariant (cfg : DashboardUpdateConfig) (s : SchedulerState)
    (h : Reachable cfg s) :
    s.dashboardUpdateInterval = cfg.initialInterval ∧
    (cfg.minInterval ≤ cfg.initialInterval → cfg.initialInterval ≤ cfg.maxInterval →
      cfg.minInterval ≤ s.dashboardUpdateInterval ∧
      s.dashboardUpdateInterval ≤ cfg.maxInterval) := by
  induction h with
  | start => exact ⟨rfl, fun h1 h2 => ⟨h1, h2⟩⟩
  | reconfigure _ _ _ => exact ⟨rfl, fun h1 h2 => ⟨h1, h2⟩⟩
  | shutdown _ ih => exact ⟨ih.1, fun h1 h2 => by
      constructor
      · exact ih.1 ▸ h1
      · exact ih.1 ▸ h2⟩

/-- Witness for `c7_interval_invariant`: the startup state of the default
configuration is reachable and its interval `30000` lies within
`[10000, 120000]`. -/
theorem c7_interval_invariant_witness :
    (startupState defaultConfig).dashboardUpdateInterval = defaultConfig.initialInterval ∧
    (defaultConfig.minInterval ≤ defaultConfig.initialInterval →
      defaultConfig.initialInterval ≤ defaultConfig.maxInterval →
      defaultConfig.minInterval ≤ (startupState defaultConfig).dashboardUpdateInterval ∧
      (startupState defaultConfig).dashboardUpdateInterval ≤ defaultConfig.maxInterval) :=
  c7_interval_invariant defaultConfig (startupState defaultConfig) Reachable.start

/- ### Theorem for the seller default-filter claim -/

/-- Claim C10.  Any find-family query on the Seller model that neither carries a
`status` condition nor sets the `skipDefaultFilter` option is rewritten by
the `pre(/^find/)` hook to carry `{ status: { $ne: 'suspended' } }`, so a
seller document with status `suspended` never matches the effective query:
suspended sellers never appear in default listing or lookup results. -/
theorem c10_default_filter_excludes_suspended (q : FindQuery)
    (hstatus : q.statusCond = none) (hskip : q.skipDefaultFilter = false) :
    statusMatches (sellerPreFindHook q) SellerStatus.suspended = false ∧
    (sellerPreFindHook q).statusCond =
      some (StatusCond.ne SellerStatus.suspended) := by
  unfold sellerPreFindHook
  rw [if_pos ⟨hskip, hstatus⟩]
  exact ⟨by simp [statusMatches], rfl⟩

/-- Witness for `c10_default_filter_excludes_suspended` at the concrete query
with no status condition and the option unset. -/
theorem c10_default_filter_excludes_suspended_witness :
    statusMatches (sellerPreFindHook ⟨none, false⟩) SellerStatus.suspended = false ∧
    (sellerPreFindHook ⟨none, false⟩).statusCond =
      some (StatusCond.ne SellerStatus.suspended) :=
  c10_default_filter_excludes_suspended ⟨none, false⟩ rfl rfl

/- ### Broadcast block of the status mutation handlers
   (src/unnamed/part_002, lines 202-227 and 558-583) -/

/-- Calling convention of a statement of the broadcast block.
`fireAndForget` models an asynchronous call whose returned promise is not
awaited: the caller proceeds immediately and the operation completes
(is acknowledged) at some later point.  `awaited` models `await f(...)`: the
caller is suspended until the operation completes.  `syncOp` models an
ordinary synchronous call that completes before the next statement starts.
The cache helper `invalidateCachePattern` lives in `utils/cache.js`, which is
not among the sources; its asynchrony is modelled from the spec, which makes
pattern deletion an operation of the external cache store that must be
acknowledged by that store.  Its call site (part_002 line 204), which is in
the sources, does not `await` it, hence `fireAndForget`. -/
inductive CallMode
  | fireAndForget
  | awaited
  | syncOp
  deriving DecidableEq

/-- Operations appearing in the broadcast block of `updateSellerStatus` and
`updateCustomerStatus`. -/
inductive BlockAction
  | invalidateCachePattern (pattern : String)
  | ioEmit (channel : String) (eventName : String)
  | getProfile (entity : String)
  | logInfo
  deriving DecidableEq

/-- One statement of the broadcast block: an operation together with its
calling convention at the call site. -/
structure BlockStmt where
  mode : CallMode
  act : BlockAction
  deriving DecidableEq

/-- Statement sequence of the `try` block of `updateSellerStatus` (part_002
lines 203-223), in source order: the non-awaited
`invalidateCachePattern('seller:<id>:*')`, the emit of the summary payload to
`admin-dashboard`, then for each of the two entity-scoped rooms an awaited
`getSellerProfile(id)` (the argument of `.emit` is evaluated before the
emit) followed by the emit itself, and the final `logger.info`. -/
def sellerBroadcastBlockStmts (id : String) : List BlockStmt :=
  [ ⟨CallMode.fireAndForget, BlockAction.invalidateCachePattern ("seller:" ++ id ++ ":*")⟩,
    ⟨CallMode.syncOp, BlockAction.ioEmit "admin-dashboard" "seller:profile:updated"⟩,
    ⟨CallMode.awaited, BlockAction.getProfile "seller"⟩,
    ⟨CallMode.syncOp, BlockAction.ioEmit ("admin-seller-" ++ id) "seller:profile:updated"⟩,
    ⟨CallMode.awaited, BlockAction.getProfile "seller"⟩,
    ⟨CallMode.syncOp, BlockAction.ioEmit ("seller-" ++ id) "seller:profile:updated"⟩,
    ⟨CallMode.syncOp, BlockAction.logInfo⟩ ]

/-- Statement sequence of the `try` block of `updateCustomerStatus` (part_002
lines 559-579); identical in shape to the seller block, with customer cache
pattern, rooms and event name. -/
def customerBroadcastBlockStmts (id : String) : List BlockStmt :=
  [ ⟨CallMode.fireAndForget, BlockAction.invalidateCachePattern ("customer:" ++ id ++ ":*")⟩,
    ⟨CallMode.syncOp, BlockAction.ioEmit "admin-dashboard" "customer:profile:updated"⟩,
    ⟨CallMode.awaited, BlockAction.getProfile "customer"⟩,
    ⟨CallMode.syncOp, BlockAction.ioEmit ("admin-customer-" ++ id) "customer:profile:updated"⟩,
    ⟨CallMode.awaited, BlockAction.getProfile "customer"⟩,
    ⟨CallMode.syncOp, BlockAction.ioEmit ("customer-" ++ id) "customer:profile:updated"⟩,
    ⟨CallMode.syncOp, BlockAction.logInfo⟩ ]

/-- Observable event in an execution of the broadcast block: statement `i` is
issued (its call starts), or statement `i` completes (for the cache
invalidation, completion is the acknowledgment of the deletion by the cache
store). -/
inductive Ev
  | start (i : Nat)
  | complete (i : Nat)
  deriving DecidableEq

/-- Extracts the statement index of an issue event. -/
def startIdx : Ev → Option Nat
  | Ev.start i => some i
  | Ev.complete _ => none

/-- Sequence of statement indices in the order their calls are issued in the
trace. -/
def startsOf (t : List Ev) : List Nat :=
  t.filterMap startIdx

/-- Whether statement `i` of the block suspends the caller until it
completes: true for `awaited` and `syncOp` statements, false for the
non-awaited (`fireAndForget`) cache invalidation. -/
def blocksCaller (p : List BlockStmt) (i : Nat) : Bool :=
  match p[i]? with
  | some st => decide (st.mode ≠ CallMode.fireAndForget)
  | none => false

/-- Possible execution traces of a broadcast block under the JavaScript
async-call semantics: every statement is issued exactly once and in program
order and completes exactly once after it is issued; a statement that blocks
the caller (synchronous or awaited) completes before any later statement is
issued; the completion of a non-awaited call is unconstrained beyond
following its own issue — in particular it may occur after later statements
have been issued. -/
def validTrace (p : List BlockStmt) (t : List Ev) : Prop :=
  t.length = 2 * p.length ∧
  startsOf t = List.range p.length ∧
  (∀ i, i < p.length → t.count (Ev.complete i) = 1) ∧
  (∀ i, i < p.length → t.indexOf (Ev.start i) < t.indexOf (Ev.complete i)) ∧
  (∀ i, i < p.length → blocksCaller p i = true →
    ∀ j, j < p.length → i < j → t.indexOf (Ev.complete i) < t.indexOf (Ev.start j))

instance (p : List BlockStmt) (t : List Ev) : Decidable (validTrace p t) := by
  unfold validTrace
  infer_instance

/-- Execution trace in which every blocking statement completes immediately
and the non-awaited cache invalidation is acknowledged only after the whole
block has run — the serialisation that exhibits a late invalidation
acknowledgment. -/
def lateAckTrace : List Ev :=
  [ Ev.start 0, Ev.start 1, Ev.complete 1, Ev.start 2, Ev.complete 2,
    Ev.start 3, Ev.complete 3, Ev.start 4, Ev.complete 4, Ev.start 5,
    Ev.complete 5, Ev.start 6, Ev.complete 6, Ev.complete 0 ]

/-- Claim C1 counterexample.  It is not the case that in every execution of
the `updateSellerStatus` broadcast block the pattern invalidation completes
(is acknowledged by the cache store) before the profile re-fetch
`getSellerProfile(id)` is issued: `lateAckTrace` is a valid execution trace
in which the acknowledgment of `invalidateCachePattern('seller:s1:*')`
(statement 0) arrives after the first `getSellerProfile` (statement 2) has
been issued, because the call at part_002 line 204 is not awaited. -/
theorem c1_counterexample :
    ¬ (∀ t : List Ev, validTrace (sellerBroadcastBlockStmts "s1") t →
        t.indexOf (Ev.complete 0) < t.indexOf (Ev.start 2)) := by
  intro h
  have h1 := h lateAckTrace (by decide)
  revert h1
  decide

/-- Claim C1 amended.  In every valid execution trace of the seller or
customer broadcast block, the cache invalidation call (statement 0) is issued
strictly before the profile re-fetch (statement 2) is issued — the call
itself precedes the re-fetch in program order — but, the call not being
awaited, its completion is not ordered before the re-fetch (see the
counterexample). -/
theorem c1_invalidate_issued_before_refetch (id : String) (t : List Ev) :
    (validTrace (sellerBroadcastBlockStmts id) t →
      (startsOf t).indexOf 0 < (startsOf t).indexOf 2) ∧
    (validTrace (customerBroadcastBlockStmts id) t →
      (startsOf t).indexOf 0 < (startsOf t).indexOf 2) := by
  constructor
  · intro h
    rw [h.2.1]
    show (List.range 7).indexOf 0 < (List.range 7).indexOf 2
    decide
  · intro h
    rw [h.2.1]
    show (List.range 7).indexOf 0 < (List.range 7).indexOf 2
    decide

/-- Witness for `c1_invalidate_issued_before_refetch` at the concrete id
`s1` and the concrete valid trace `lateAckTrace` (the statement shapes of
the seller and customer blocks coincide, so the same trace is valid for
both). -/
theorem c1_invalidate_issued_before_refetch_witness :
    (startsOf lateAckTrace).indexOf 0 < (startsOf lateAckTrace).indexOf 2 ∧
    (startsOf lateAckTrace).indexOf 0 < (startsOf lateAckTrace).indexOf 2 :=
  ⟨(c1_invalidate_issued_before_refetch "s1" lateAckTrace).1 (by decide),
   (c1_invalidate_issued_before_refetch "s1" lateAckTrace).2 (by decide)⟩

/- ### Broadcast targets (claim C6) -/

/-- Channel of an emit statement, when the statement is an emit. -/
def emitChannel (st : BlockStmt) : Option String :=
  match st.act with
  | BlockAction.ioEmit ch _ => some ch
  | _ => none

/-- Channels a broadcast block publishes to, in source order. -/
def emitChannels (p : List BlockStmt) : List String :=
  p.filterMap emitChannel

/-- Broadcast target set for an entity-status-changed event for entity
`(entityType, id)`: the global dashboard channel `admin-dashboard`, the
admin-scoped channel `admin-<entityType>-<id>` and the self-scoped channel
`<entityType>-<id>`. -/
def targetsFor (entityType id : String) : List String :=
  ["admin-dashboard", "admin-" ++ entityType ++ "-" ++ id, entityType ++ "-" ++ id]

/-- Strings that differ at some position are different. -/
theorem string_ne_of_get (a b : String) (n : Nat)
    (h : ¬ a.data[n]? = b.data[n]?) : ¬ a = b :=
  fun e => h (by rw [e])

/-- Reading a position inside the left part of an appended string. -/
theorem append_get_left (s t : String) (n : Nat) (h : n < s.data.length) :
    (s ++ t).data[n]? = s.data[n]? := by
  rw [String.data_append]
  exact List.getElem?_append_left h

/-- A string with the prefix `s` differs from `c` when `s` and `c` differ at
a position inside `s`. -/
theorem append_ne_of_get (s c : String) (n : Nat) (hs : n < s.data.length)
    (h : ¬ s.data[n]? = c.data[n]?) (id : String) : ¬ (s ++ id) = c := by
  apply string_ne_of_get _ _ n
  rw [append_get_left s id n hs]
  exact h

/-- Strings with prefixes that differ at a position inside both prefixes are
different. -/
theorem append_ne_append_of_get (s t : String) (n : Nat) (hs : n < s.data.length)
    (ht : n < t.data.length) (h : ¬ s.data[n]? = t.data[n]?) (idl idr : String) :
    ¬ (s ++ idl) = (t ++ idr) := by
  apply string_ne_of_get _ _ n
  rw [append_get_left s idl n hs, append_get_left t idr n ht]
  exact h

/-- Merged-literal form of the seller target set. -/
theorem targetsFor_seller (id : String) :
    targetsFor "seller" id =
      ["admin-dashboard", "admin-seller-" ++ id, "seller-" ++ id] := by
  have e1 : ("admin-" ++ "seller" ++ "-" : String) = "admin-seller-" := by decide
  have e2 : ("seller" ++ "-" : String) = "seller-" := by decide
  simp only [targetsFor]
  rw [e1, e2]

/-- Merged-literal form of the customer target set. -/
theorem targetsFor_customer (id : String) :
    targetsFor "customer" id =
      ["admin-dashboard", "admin-customer-" ++ id, "customer-" ++ id] := by
  have e1 : ("admin-" ++ "customer" ++ "-" : String) = "admin-customer-" := by decide
  have e2 : ("customer" ++ "-" : String) = "customer-" := by decide
  simp only [targetsFor]
  rw [e1, e2]

/-- Claim C6.  For every entity id, the channels the seller and customer
status-update broadcasts publish to are exactly the three targets — the
global dashboard channel, the admin-scoped channel and the self-scoped
channel for the entity — and the target set is a function of the event alone
(`targetsFor` is a pure function of entity type and id, so repeated calls
with the same event give the same set), with the three channel names
pairwise distinct. -/
theorem c6_targets_exactly_three (id : String) :
    emitChannels (sellerBroadcastBlockStmts id) = targetsFor "seller" id ∧
    emitChannels (customerBroadcastBlockStmts id) = targetsFor "customer" id ∧
    (targetsFor "seller" id).length = 3 ∧
    (targetsFor "customer" id).length = 3 ∧
    (targetsFor "seller" id).Nodup ∧
    (targetsFor "customer" id).Nodup := by
  have hs1 : ¬ ("admin-seller-" ++ id) = "admin-dashboard" :=
    append_ne_of_get "admin-seller-" "admin-dashboard" 6 (by decide) (by decide) id
  have hs2 : ¬ ("seller-" ++ id) = "admin-dashboard" :=
    append_ne_of_get "seller-" "admin-dashboard" 0 (by decide) (by decide) id
  have hs3 : ¬ ("admin-seller-" ++ id) = ("seller-" ++ id) :=
    append_ne_append_of_get "admin-seller-" "seller-" 0 (by decide) (by decide) (by decide) id id
  have hc1 : ¬ ("admin-customer-" ++ id) = "admin-dashboard" :=
    append_ne_of_get "admin-customer-" "admin-dashboard" 6 (by decide) (by decide) id
  have hc2 : ¬ ("customer-" ++ id) = "admin-dashboard" :=
    append_ne_of_get "customer-" "admin-dashboard" 0 (by decide) (by decide) id
  have hc3 : ¬ ("admin-customer-" ++ id) = ("customer-" ++ id) :=
    append_ne_append_of_get "admin-customer-" "customer-" 0 (by decide) (by decide) (by decide) id id
  refine ⟨?_, ?_, ?_, ?_, ?_, ?_⟩
  · rw [targetsFor_seller]
    simp [emitChannels, sellerBroadcastBlockStmts, emitChannel]
  · rw [targetsFor_customer]
    simp [emitChannels, customerBroadcastBlockStmts, emitChannel]
  · rw [targetsFor_seller]
    rfl
  · rw [targetsFor_customer]
    rfl
  · rw [targetsFor_seller]
    simp only [List.nodup_cons, List.mem_cons, List.mem_singleton, List.not_mem_nil,
      or_false, List.nodup_nil, and_true, not_or]
    exact ⟨⟨fun h => hs1 h.symm, fun h => hs2 h.symm⟩, hs3, not_false⟩
  · rw [targetsFor_customer]
    simp only [List.nodup_cons, List.mem_cons, List.mem_singleton, List.not_mem_nil,
      or_false, List.nodup_nil, and_true, not_or]
    exact ⟨⟨fun h => hc1 h.symm, fun h => hc2 h.symm⟩, hc3, not_false⟩

/- ### Execution of the broadcast block under failures (claims C3, C5) -/

/-- Indices of the statements whose calls are issued when the block is run
from statement index `i` under the failure pattern `fails` (`fails k = true`
means the call of statement `k` throws: a failed Session Registry delivery
for an emit, a loader failure for a profile fetch).  The whole block sits in
a single `try` (part_002 lines 203-227 and 559-583), so the first throwing
statement transfers control to the `catch` and no later statement is issued;
the throwing statement itself was issued. -/
def executedFrom (fails : Nat → Bool) : Nat → List BlockStmt → List Nat
  | _, [] => []
  | i, _ :: rest => if fails i then [i] else i :: executedFrom fails (i + 1) rest

/-- Whether running the block from statement index `i` under `fails` throws,
transferring control to the `catch` of the block, which only logs a warning
(part_002 lines 224-227 and 580-583): the failure is caught, never
unhandled. -/
def blockCaught (fails : Nat → Bool) : Nat → List BlockStmt → Bool
  | _, [] => false
  | i, _ :: rest => if fails i then true else blockCaught fails (i + 1) rest

/-- Execution of a whole broadcast block under the failure pattern `fails`:
the indices of the issued statements and whether a failure was caught. -/
def runBlock (p : List BlockStmt) (fails : Nat → Bool) : List Nat × Bool :=
  (executedFrom fails 0 p, blockCaught fails 0 p)

/-- Channels whose publish was actually issued in an execution of the block
under `fails` (a publish that is issued and itself fails to deliver still
counts as attempted). -/
def attemptedEmits (p : List BlockStmt) (fails : Nat → Bool) : List String :=
  (runBlock p fails).1.filterMap (fun i => (p[i]?).bind emitChannel)

/-- Claim C3 counterexample.  It is not the case that under every failure
pattern each of the three resolved targets has its publish attempted: when
the Session Registry fails the delivery to the first target (the
`admin-dashboard` emit, statement 1), the single `try/catch` aborts the rest
of the block, and the publish to the admin-scoped channel
`admin-seller-s1` is never attempted. -/
theorem c3_counterexample :
    ¬ (∀ fails : Nat → Bool, ∀ ch ∈ targetsFor "seller" "s1",
        ch ∈ attemptedEmits (sellerBroadcastBlockStmts "s1") fails) := by
  intro h
  have h1 := h (fun i => i == 1) ("admin-seller-" ++ "s1") (by decide)
  revert h1
  decide

/-- Claim C3 amended.  A failure in any statement of the broadcast block is
caught by the block's own `catch`, so the broadcast operation always
completes without unhandled failure; but the publishes are not attempted
independently: when no statement fails, all seven statements are issued and
the publishes reach exactly the three resolved targets, while when statement
`k` is the first to fail, exactly the statements `0..k` are issued and every
publish after the failing statement is skipped. -/
theorem c3_publishes_stop_at_first_failure (id : String) (fails : Nat → Bool) :
    ((∀ i, i < 7 → fails i = false) →
      runBlock (sellerBroadcastBlockStmts id) fails = (List.range 7, false) ∧
      runBlock (customerBroadcastBlockStmts id) fails = (List.range 7, false) ∧
      attemptedEmits (sellerBroadcastBlockStmts id) fails = targetsFor "seller" id ∧
      attemptedEmits (customerBroadcastBlockStmts id) fails = targetsFor "customer" id) ∧
    (∀ k, k < 7 → fails k = true → (∀ i, i < k → fails i = false) →
      runBlock (sellerBroadcastBlockStmts id) fails = (List.range (k + 1), true) ∧
      runBlock (customerBroadcastBlockStmts id) fails = (List.range (k + 1), true)) := by
  constructor
  · intro h
    have h0 := h 0 (by norm_num)
    have h1 := h 1 (by norm_num)
    have h2 := h 2 (by norm_num)
    have h3 := h 3 (by norm_num)
    have h4 := h 4 (by norm_num)
    have h5 := h 5 (by norm_num)
    have h6 := h 6 (by norm_num)
    have hr : List.range 7 = [0, 1, 2, 3, 4, 5, 6] := by decide
    refine ⟨?_, ?_, ?_, ?_⟩
    · rw [hr]
      simp [runBlock, executedFrom, blockCaught, sellerBroadcastBlockStmts,
        h0, h1, h2, h3, h4, h5, h6]
    · rw [hr]
      simp [runBlock, executedFrom, blockCaught, customerBroadcastBlockStmts,
        h0, h1, h2, h3, h4, h5, h6]
    · rw [targetsFor_seller]
      simp [attemptedEmits, runBlock, executedFrom, blockCaught,
        sellerBroadcastBlockStmts, emitChannel, h0, h1, h2, h3, h4, h5, h6]
    · rw [targetsFor_customer]
      simp [attemptedEmits, runBlock, executedFrom, blockCaught,
        customerBroadcastBlockStmts, emitChannel, h0, h1, h2, h3, h4, h5, h6]
  · intro k hk hfk hlt
    interval_cases k
    · constructor <;>
        simp [runBlock, executedFrom, blockCaught, sellerBroadcastBlockStmts,
          customerBroadcastBlockStmts, hfk, List.range_succ]
    · have e0 := hlt 0 (by norm_num)
      constructor <;>
        simp [runBlock, executedFrom, blockCaught, sellerBroadcastBlockStmts,
          customerBroadcastBlockStmts, hfk, e0, List.range_succ]
    · have e0 := hlt 0 (by norm_num)
      have e1 := hlt 1 (by norm_num)
      constructor <;>
        simp [runBlock, executedFrom, blockCaught, sellerBroadcastBlockStmts,
          customerBroadcastBlockStmts, hfk, e0, e1, List.range_succ]
    · have e0 := hlt 0 (by norm_num)
      have e1 := hlt 1 (by norm_num)
      have e2 := hlt 2 (by norm_num)
      constructor <;>
        simp [runBlock, executedFrom, blockCaught, sellerBroadcastBlockStmts,
          customerBroadcastBlockStmts, hfk, e0, e1, e2, List.range_succ]
    · have e0 := hlt 0 (by norm_num)
      have e1 := hlt 1 (by norm_num)
      have e2 := hlt 2 (by norm_num)
      have e3 := hlt 3 (by norm_num)
      constructor <;>
        simp [runBlock, executedFrom, blockCaught, sellerBroadcastBlockStmts,
          customerBroadcastBlockStmts, hfk, e0, e1, e2, e3, List.range_succ]
    · have e0 := hlt 0 (by norm_num)
      have e1 := hlt 1 (by norm_num)
      have e2 := hlt 2 (by norm_num)
      have e3 := hlt 3 (by norm_num)
      have e4 := hlt 4 (by norm_num)
      constructor <;>
        simp [runBlock, executedFrom, blockCaught, sellerBroadcastBlockStmts,
          customerBroadcastBlockStmts, hfk, e0, e1, e2, e3, e4, List.range_succ]
    · have e0 := hlt 0 (by norm_num)
      have e1 := hlt 1 (by norm_num)
      have e2 := hlt 2 (by norm_num)
      have e3 := hlt 3 (by norm_num)
      have e4 := hlt 4 (by norm_num)
      have e5 := hlt 5 (by norm_num)
      constructor <;>
        simp [runBlock, executedFrom, blockCaught, sellerBroadcastBlockStmts,
          customerBroadcastBlockStmts, hfk, e0, e1, e2, e3, e4, e5, List.range_succ]

/-- Witness for `c3_publishes_stop_at_first_failure` at the id `s1`, the
all-succeed failure pattern for the first part and the fail-at-3 pattern for
the second. -/
theorem c3_publishes_stop_at_first_failure_witness :
    (runBlock (sellerBroadcastBlockStmts "s1") (fun _ => false) = (List.range 7, false) ∧
     runBlock (customerBroadcastBlockStmts "s1") (fun _ => false) = (List.range 7, false) ∧
     attemptedEmits (sellerBroadcastBlockStmts "s1") (fun _ => false) = targetsFor "seller" "s1" ∧
     attemptedEmits (customerBroadcastBlockStmts "s1") (fun _ => false) = targetsFor "customer" "s1") ∧
    (runBlock (sellerBroadcastBlockStmts "s1") (fun i => i == 3) = (List.range 4, true) ∧
     runBlock (customerBroadcastBlockStmts "s1") (fun i => i == 3) = (List.range 4, true)) :=
  ⟨(c3_publishes_stop_at_first_failure "s1" (fun _ => false)).1 (fun _ _ => rfl),
   (c3_publishes_stop_at_first_failure "s1" (fun i => i == 3)).2 3 (by norm_num) rfl
     (by decide)⟩

/- ### Status mutation handlers (claim C5),
   detail reads (claim C8) and batch realtime reads (claim C9) -/

/-- Entry pushed onto a status history (part_002 lines 192-198 and 545-554):
`{status, reason, updatedBy, timestamp}` with the wall-clock timestamp
omitted from the model. -/
structure StatusEntry where
  status : String
  reason : String
  updatedBy : String
  deriving DecidableEq

/-- Seller document fields used by the admin controllers. -/
structure Seller where
  id : String
  status : String
  businessName : String
  gstin : String
  statusHistory : List StatusEntry
  deriving DecidableEq

/-- Customer document fields used by the admin controllers. -/
structure Customer where
  id : String
  status : String
  addresses : List String
  statusHistory : List StatusEntry
  deriving DecidableEq

/-- Outcome of a request handler: a JSON success response with its HTTP
status and payload, or an `AppError` passed to `next` with its message and
HTTP status. -/
inductive HandlerResult (α : Type)
  | ok (httpStatus : Nat) (data : α)
  | err (message : String) (httpStatus : Nat)
  deriving DecidableEq

/-- Mutation applied to the seller document by `updateSellerStatus` before
`seller.save()` (part_002 lines 188-198): set the new status and push a
history entry. -/
def applySellerStatusUpdate (s : Seller) (status reason updatedBy : String) :
    Seller :=
  { s with status := status,
           statusHistory := s.statusHistory ++ [⟨status, reason, updatedBy⟩] }

/-- Mutation applied to the customer document by `updateCustomerStatus`
before `customer.save()` (part_002 lines 541-554). -/
def applyCustomerStatusUpdate (c : Customer) (status reason updatedBy : String) :
    Customer :=
  { c with status := status,
           statusHistory := c.statusHistory ++ [⟨status, reason, updatedBy⟩] }

/-- Embedding of `updateSellerStatus` (part_002 lines 176-242) on the path
where the document save succeeds (the persistence step; its own failure is
handled by the outer catch and is outside claim C5's scope).  `findResult`
is the outcome of `Seller.findById(id)`; `fails` is the failure pattern of
the broadcast block, whose single `try/catch` only logs.  Returns the
response sent and the record of the broadcast execution. -/
def updateSellerStatus (findResult : Option Seller)
    (status reason updatedBy : String) (fails : Nat → Bool) :
    HandlerResult Seller × (List Nat × Bool) :=
  match findResult with
  | none => (HandlerResult.err "Seller not found" 404, ([], false))
  | some seller =>
    let saved := applySellerStatusUpdate seller status reason updatedBy
    (HandlerResult.ok 200 saved, runBlock (sellerBroadcastBlockStmts saved.id) fails)

/-- Embedding of `updateCustomerStatus` (part_002 lines 529-598) on the path
where the document save succeeds. -/
def updateCustomerStatus (findResult : Option Customer)
    (status reason updatedBy : String) (fails : Nat → Bool) :
    HandlerResult Customer × (List Nat × Bool) :=
  match findResult with
  | none => (HandlerResult.err "Customer not found" 404, ([], false))
  | some customer =>
    let saved := applyCustomerStatusUpdate customer status reason updatedBy
    (HandlerResult.ok 200 saved, runBlock (customerBroadcastBlockStmts saved.id) fails)

/-- Claim C5.  For every found entity and every failure pattern of the
cache-invalidation / broadcast path, the status mutation handlers still
respond HTTP 200 with the saved entity: no failure inside the broadcast
block (cache invalidation, profile fetch or any of the three publishes)
reaches the mutation response, because the block's `catch` only logs. -/
theorem c5_broadcast_failures_never_propagate (s : Seller) (c : Customer)
    (status reason updatedBy : String) (fails failsCust : Nat → Bool) :
    (updateSellerStatus (some s) status reason updatedBy fails).1 =
      HandlerResult.ok 200 (applySellerStatusUpdate s status reason updatedBy) ∧
    (updateCustomerStatus (some c) status reason updatedBy failsCust).1 =
      HandlerResult.ok 200 (applyCustomerStatusUpdate c status reason updatedBy) :=
  ⟨rfl, rfl⟩

/-- Subset of the seller document rendered as `kycDetails` by
`getSellerDetails` (part_002 lines 137-144). -/
structure KycDetails where
  status : String
  businessName : String
  gstin : String
  deriving DecidableEq

/-- Payload of a successful `getSellerDetails` response (part_002 lines
153-164). -/
structure SellerDetailsData where
  seller : Seller
  kycDetails : KycDetails
  agreements : List String
  rateCards : List String
  isRealtime : Bool
  deriving DecidableEq

/-- Payload of a successful `getCustomerDetails` response (part_002 lines
508-517). -/
structure CustomerDetailsData where
  customer : Customer
  addresses : List String
  isRealtime : Bool
  deriving DecidableEq

/-- Address list rendered by `getCustomerDetails` (part_002 lines 502-505):
the customer's addresses when non-empty, otherwise the empty list. -/
def customerAddresses (c : Customer) : List String :=
  if 0 < c.addresses.length then c.addresses else []

/-- Embedding of `getSellerDetails` (part_002 lines 115-169).
`profileResult` is the outcome of the awaited `getSellerProfile(id)` call:
the inner `try/catch` turns a loader failure into `sellerProfile = null`
(lines 120-127); the seller then falls back to `Seller.findById(id)` via the
`||` (line 130), a missing document yields the 404 `AppError`, and the
response carries `isRealtime: !!sellerProfile`.  `agreements` and
`rateCards` are the results of the two collection queries. -/
def getSellerDetails (profileResult : Except String Seller)
    (dbResult : Option Seller) (agreements rateCards : List String) :
    HandlerResult SellerDetailsData :=
  let sellerProfile : Option Seller :=
    match profileResult with
    | Except.ok p => some p
    | Except.error _ => none
  match sellerProfile.orElse (fun _ => dbResult) with
  | none => HandlerResult.err "Seller not found" 404
  | some seller =>
    HandlerResult.ok 200
      { seller := seller
        kycDetails := { status := seller.status, businessName := seller.businessName,
                        gstin := seller.gstin }
        agreements := agreements
        rateCards := rateCards
        isRealtime := sellerProfile.isSome }

/-- Embedding of `getCustomerDetails` (part_002 lines 480-522), with the
same profile fallback structure as `getSellerDetails`. -/
def getCustomerDetails (profileResult : Except String Customer)
    (dbResult : Option Customer) : HandlerResult CustomerDetailsData :=
  let customerProfile : Option Customer :=
    match profileResult with
    | Except.ok p => some p
    | Except.error _ => none
  match customerProfile.orElse (fun _ => dbResult) with
  | none => HandlerResult.err "Customer not found" 404
  | some customer =>
    HandlerResult.ok 200
      { customer := customer
        addresses := customerAddresses customer
        isRealtime := customerProfile.isSome }

/-- Claim C8.  When the profile loader fails (`getSellerProfile` /
`getCustomerProfile` throws) and the direct database query finds the entity,
the detail handlers respond HTTP 200 with the database entity and
`isRealtime = false` instead of failing the request: the loader error is
caught and never propagates upward uncaught. -/
theorem c8_loader_failure_falls_back_to_db (msgS msgC : String) (s : Seller)
    (c : Customer) (agreements rateCards : List String) :
    getSellerDetails (Except.error msgS) (some s) agreements rateCards =
      HandlerResult.ok 200
        ⟨s, ⟨s.status, s.businessName, s.gstin⟩, agreements, rateCards, false⟩ ∧
    getCustomerDetails (Except.error msgC) (some c) =
      HandlerResult.ok 200 ⟨c, customerAddresses c, false⟩ :=
  ⟨rfl, rfl⟩

/- ### Batch realtime profile reads (claim C9) -/

/-- Value of the `sellerIds` / `customerIds` field of the request body:
absent (destructuring default `[]` applies, part_002 line 607), present but
not an array, or an array of ids. -/
inductive BodyField
  | undef
  | notArray
  | arr (ids : List String)
  deriving DecidableEq

/-- List of ids a body field denotes after the destructuring default:
`none` exactly when `Array.isArray` fails for the field. -/
def fieldIds : BodyField → Option (List String)
  | BodyField.undef => some []
  | BodyField.notArray => none
  | BodyField.arr ids => some ids

/-- Element of the result arrays of `getRealtimeUserData`: a fetched profile
or the per-id placeholder `{id, error}` built in the per-promise `catch`
(part_002 lines 626-630 and 637-641). -/
inductive RTEntry
  | profile (p : String)
  | failed (id : String) (error : String)
  deriving DecidableEq

/-- Payload of a successful `getRealtimeUserData` response. -/
structure RTData where
  sellers : List RTEntry
  customers : List RTEntry
  deriving DecidableEq

/-- Result of fetching one profile: the profile on success, the placeholder
object on failure (part_002 lines 623-642). -/
def fetchEntry (fetch : String → Except String String) (id : String) : RTEntry :=
  match fetch id with
  | Except.ok p => RTEntry.profile p
  | Except.error _ => RTEntry.failed id "Failed to fetch real-time data"

/-- Embedding of `getRealtimeUserData` (part_002 lines 605-662): reject with
a 400 `AppError` when either field is not an array, then with a 400 when the
combined number of ids exceeds `MAX_IDS = 20`; otherwise fetch every profile
(each id in both lists) and respond 200 with the per-id results.  The second
component records the ids for which a profile fetch was issued — empty on
both rejection paths, which happen before any fetch. -/
def getRealtimeUserData (sellerIds customerIds : BodyField)
    (fetchSeller fetchCustomer : String → Except String String) :
    HandlerResult RTData × List String :=
  match fieldIds sellerIds, fieldIds customerIds with
  | some sids, some cids =>
    if 20 < sids.length + cids.length then
      (HandlerResult.err "Too many IDs requested. Maximum 20 total IDs allowed" 400, [])
    else
      (HandlerResult.ok 200
        ⟨sids.map (fetchEntry fetchSeller), cids.map (fetchEntry fetchCustomer)⟩,
        sids ++ cids)
  | _, _ =>
    (HandlerResult.err "Invalid input format. sellerIds and customerIds must be arrays" 400,
      [])

/-- Claim C9.  `getRealtimeUserData` rejects a request whose `sellerIds` or
`customerIds` is not an array with HTTP 400 before any profile fetch, and a
request whose combined id count exceeds 20 with HTTP 400 before any profile
fetch; a request within the limit succeeds with HTTP 200, every listed id is
fetched, and an id whose fetch fails is reported by the placeholder
`{id, error: 'Failed to fetch real-time data'}` in the result array. -/
theorem c9_realtime_user_data_validation (sellerIds customerIds : BodyField)
    (sids cids : List String)
    (fetchSeller fetchCustomer : String → Except String String) :
    ((fieldIds sellerIds = none ∨ fieldIds customerIds = none) →
      getRealtimeUserData sellerIds customerIds fetchSeller fetchCustomer =
        (HandlerResult.err
          "Invalid input format. sellerIds and customerIds must be arrays" 400, [])) ∧
    (20 < sids.length + cids.length →
      getRealtimeUserData (BodyField.arr sids) (BodyField.arr cids)
          fetchSeller fetchCustomer =
        (HandlerResult.err
          "Too many IDs requested. Maximum 20 total IDs allowed" 400, [])) ∧
    (sids.length + cids.length ≤ 20 →
      getRealtimeUserData (BodyField.arr sids) (BodyField.arr cids)
          fetchSeller fetchCustomer =
        (HandlerResult.ok 200
          ⟨sids.map (fetchEntry fetchSeller), cids.map (fetchEntry fetchCustomer)⟩,
          sids ++ cids)) ∧
    (∀ id msg, fetchSeller id = Except.error msg →
      fetchEntry fetchSeller id = RTEntry.failed id "Failed to fetch real-time data") := by
  refine ⟨?_, ?_, ?_, ?_⟩
  · intro h
    cases sellerIds <;> cases customerIds <;>
      simp_all [fieldIds, getRealtimeUserData]
  · intro h
    simp [getRealtimeUserData, fieldIds, if_pos h]
  · intro h
    simp [getRealtimeUserData, fieldIds, if_neg (not_lt.mpr h)]
  · intro id msg h
    simp [fetchEntry, h]

/-- Witness for `c9_realtime_user_data_validation`: a not-an-array request,
a 21-id request, a one-id request whose fetch fails, all against the
always-failing fetcher. -/
theorem c9_realtime_user_data_validation_witness :
    getRealtimeUserData BodyField.notArray BodyField.undef
        (fun _ => Except.error "down") (fun _ => Except.error "down") =
      (HandlerResult.err
        "Invalid input format. sellerIds and customerIds must be arrays" 400, []) ∧
    getRealtimeUserData (BodyField.arr (List.replicate 21 "x")) (BodyField.arr [])
        (fun _ => Except.error "down") (fun _ => Except.error "down") =
      (HandlerResult.err
        "Too many IDs requested. Maximum 20 total IDs allowed" 400, []) ∧
    getRealtimeUserData (BodyField.arr ["a"]) (BodyField.arr [])
        (fun _ => Except.error "down") (fun _ => Except.error "down") =
      (HandlerResult.ok 200
        ⟨["a"].map (fetchEntry (fun _ => Except.error "down")), []⟩, ["a"]) ∧
    fetchEntry (fun _ => Except.error "down") "a" =
      RTEntry.failed "a" "Failed to fetch real-time data" := by
  refine ⟨?_, ?_, ?_, ?_⟩
  · exact (c9_realtime_user_data_validation BodyField.notArray BodyField.undef [] []
      (fun _ => Except.error "down") (fun _ => Except.error "down")).1 (Or.inl rfl)
  · exact (c9_realtime_user_data_validation BodyField.notArray BodyField.undef
      (List.replicate 21 "x") [] (fun _ => Except.error "down")
      (fun _ => Except.error "down")).2.1 (by decide)
  · have h := (c9_realtime_user_data_validation BodyField.notArray BodyField.undef
      ["a"] [] (fun _ => Except.error "down")
      (fun _ => Except.error "down")).2.2.1 (by norm_num)
    simpa using h
  · exact (c9_realtime_user_data_validation BodyField.notArray BodyField.undef [] []
      (fun _ => Except.error "down")
      (fun _ => Except.error "down")).2.2.2 "a" "down" rfl
